import Mathlib

/-!
Shallow embedding of the transcription worker of `services/transcription-service`
(`app/worker/transcribe.py`, `app/main.py`, `app/storage/s3_adapter.py`).

External collaborators (object storage, the whisperx model calls, the HTTP
POST of the callback) are modelled as oracles: an `Except String α` value (or a
function producing one) stands for one invocation of the collaborator, which
either returns a value or raises an exception carrying a message.  The
orchestration code of `TranscriptionService` is translated statement by
statement; the mutable service object (`self.models`,
`self.alignment_models`, `self.diarization_pipeline`, `self.hf_token`,
`self.max_retries`) becomes an explicit `ServiceState` threaded through the
functions.  Python dicts keyed by strings become association lists with
front-insertion, so the most recent insertion wins on lookup, matching dict
overwrite semantics.  Float arithmetic is idealised as rational arithmetic.
-/

namespace SpeechToText

/-- Status enum used by the service responses (`TranscriptionStatus`). -/
inductive TStatus where
  | pending
  | processing
  | completed
  | failed
deriving DecidableEq, Repr

/-- A recognition segment: a Python dict with optional keys `start`, `end`,
`text`, `confidence`, `speaker`.  `seg.get(k, d)` becomes `Option.getD`. -/
structure Segment where
  start : Option ℚ := none
  stop : Option ℚ := none
  text : Option String := none
  confidence : Option ℚ := none
  speaker : Option String := none
deriving DecidableEq, Repr

/-- A word-level sub-segment produced by alignment; carried opaquely by the
orchestrator. -/
structure WordSeg where
  word : String
  start : Option ℚ := none
  stop : Option ℚ := none
deriving DecidableEq, Repr

/-- Per-speaker statistics built by `_extract_speaker_info`. -/
structure SpeakerInfo where
  id : String
  total_speech_time : ℚ
  segments_count : Nat
deriving DecidableEq, Repr

/-- The dict returned by `model.transcribe` / `whisperx.align` /
`whisperx.assign_word_speakers`: segments plus optional `language` and
`word_segments` keys (`none` models an absent key). -/
structure WxResult where
  segments : List Segment
  language : Option String := none
  wordSegments : Option (List WordSeg) := none
deriving DecidableEq, Repr

/-- Opaque handle to a loaded whisper model. -/
abbrev ModelHandle := Nat

/-- Opaque handle to a loaded alignment model (the `(model, metadata)` pair). -/
abbrev AlignHandle := Nat

/-- Opaque handle to a constructed diarization pipeline. -/
abbrev DiarHandle := Nat

/-- The incoming `TranscriptionRequest` (enum members are modelled by their
`.value` strings). -/
structure TranscriptionRequest where
  job_id : String
  s3_url : String
  model : String
  compute_type : String
  language : Option String := none
  diarize : Bool := false
  batch_size : Nat := 16
  synchronous : Bool := false
  callback_url : Option String := none
deriving DecidableEq, Repr

/-- The `TranscriptionResponse`, with the fields the worker sets; fields the
worker leaves unset default to `none`, mirroring the optional schema fields. -/
structure TranscriptionResponse where
  job_id : String
  status : TStatus
  message : String
  transcript_text : Option String := none
  confidence : Option ℚ := none
  language_detected : Option String := none
  segments : Option (List Segment) := none
  word_segments : Option (List WordSeg) := none
  speakers : Option (List SpeakerInfo) := none
  model_used : Option String := none
  compute_type_used : Option String := none
  transcript_url : Option String := none
  timestamps_url : Option String := none
  error_message : Option String := none
  error_code : Option String := none
deriving DecidableEq, Repr

/-- Mutable state of the `TranscriptionService` object. -/
structure ServiceState where
  models : List (String × ModelHandle) := []
  alignmentModels : List (String × AlignHandle) := []
  diarizationPipeline : Option DiarHandle := none
  hfToken : Option String := none
  maxRetries : Nat := 3
deriving DecidableEq, Repr

/-- Dict lookup on an association list (first match wins; insertion is at the
front, so the most recent binding shadows older ones, like dict assignment). -/
def dictLookup {α : Type} (l : List (String × α)) (k : String) : Option α :=
  (l.find? (fun p => p.1 == k)).map (fun p => p.2)

/-- Python's `str.strip()`: drop whitespace from both ends of the string. -/
def pyStrip (s : String) : String :=
  String.mk (((s.data.dropWhile Char.isWhitespace).reverse.dropWhile
    Char.isWhitespace).reverse)

/-- Line 246: `" ".join([seg.get("text", "").strip() for seg in segments])`.
Every segment contributes its trimmed text, including texts that trim to the
empty string. -/
def transcriptText (segments : List Segment) : String :=
  String.intercalate " " (segments.map (fun seg => pyStrip (seg.text.getD "")))

/-- Lines 251-252: collect `seg["confidence"]` over the segments that have the
key, then average them, or `None` when no segment has the key. -/
def avgConfidence (segments : List Segment) : Option ℚ :=
  let confidences :=
    (segments.filter (fun seg => seg.confidence.isSome)).map
      (fun seg => seg.confidence.getD 0)
  if confidences.isEmpty then none
  else some (confidences.sum / (confidences.length : ℚ))

/-- Spec-side definition for the average confidence, following the spec's
words: the arithmetic mean of exactly the confidence values that are present,
absent when none is present. -/
def specMeanPresent (segments : List Segment) : Option ℚ :=
  let present := segments.filterMap (fun seg => seg.confidence)
  if present.isEmpty then none
  else some (present.sum / (present.length : ℚ))

/-- Spec-side definition for the transcript text, following the claim's
words: the non-empty trimmed texts joined with single spaces. -/
def specTranscriptText (segments : List Segment) : String :=
  String.intercalate " "
    ((segments.map (fun seg => pyStrip (seg.text.getD ""))).filter (fun t => t ≠ ""))

/-- `_extract_speaker_info`, one segment step: segments carrying a `speaker`
key accumulate `end - start` and a count under their speaker id, in first-seen
order. -/
def speakerStep (acc : List SpeakerInfo) (seg : Segment) : List SpeakerInfo :=
  match seg.speaker with
  | none => acc
  | some sp =>
    if acc.any (fun info => info.id == sp) then
      acc.map (fun info =>
        if info.id == sp then
          { info with
            total_speech_time :=
              info.total_speech_time + (seg.stop.getD 0 - seg.start.getD 0),
            segments_count := info.segments_count + 1 }
        else info)
    else
      acc ++ [{ id := sp,
                total_speech_time := seg.stop.getD 0 - seg.start.getD 0,
                segments_count := 1 }]

/-- Lines 322-339: `_extract_speaker_info`. -/
def extractSpeakerInfo (segments : List Segment) : List SpeakerInfo :=
  segments.foldl speakerStep []

/-- Line 65: `cache_key = f"{model_name}_{compute_type}"`. -/
def cacheKey (modelName computeType : String) : String :=
  modelName ++ "_" ++ computeType

/-- Lines 63-86: `_load_whisper_model`.  `construct` is the outcome of the
`whisperx.load_model` call this invocation would make: cache hit returns the
cached handle without consulting `construct`; on a miss a successful
construction is cached and returned, a raising construction re-raises and
caches nothing. -/
def loadWhisperModel (st : ServiceState) (modelName computeType : String)
    (construct : Except String ModelHandle) :
    Except String ModelHandle × ServiceState :=
  let key := cacheKey modelName computeType
  match dictLookup st.models key with
  | some m => (Except.ok m, st)
  | none =>
    match construct with
    | Except.ok model =>
      (Except.ok model, { st with models := (key, model) :: st.models })
    | Except.error e => (Except.error e, st)

/-- Lines 88-107: `_load_alignment_model`.  Unlike the whisper loader, a
raising construction is caught internally and surfaces as `(None, None)`
— modelled as `none` — and nothing is cached. -/
def loadAlignmentModel (st : ServiceState) (language : String)
    (construct : Except String AlignHandle) :
    Option AlignHandle × ServiceState :=
  match dictLookup st.alignmentModels language with
  | some m => (some m, st)
  | none =>
    match construct with
    | Except.ok m =>
      (some m, { st with alignmentModels := (language, m) :: st.alignmentModels })
    | Except.error _ => (none, st)

/-- Lines 109-131: `_load_diarization_pipeline`.  Returns the cached pipeline
if any; without a HuggingFace token it returns `None` without attempting
construction; a raising construction is caught and surfaces as `None`. -/
def loadDiarizationPipeline (st : ServiceState)
    (construct : Except String DiarHandle) :
    Option DiarHandle × ServiceState :=
  match st.diarizationPipeline with
  | some p => (some p, st)
  | none =>
    match st.hfToken with
    | none => (none, st)
    | some _ =>
      match construct with
      | Except.ok p => (some p, { st with diarizationPipeline := some p })
      | Except.error _ => (none, st)

/-- The per-job oracle: each field is the outcome of one external call the
pipeline may make (storage download, the whisperx model calls, the artifact
uploads keyed by the S3 key the worker passes). -/
structure Env where
  download : Except String String
  loadModel : Except String ModelHandle
  transcribeRes : Except String WxResult
  loadAlign : Except String AlignHandle
  alignRes : Except String WxResult
  diarConstruct : Except String DiarHandle
  diarizeRun : Except String Unit
  assignRes : Except String WxResult
  uploadText : String → Except String String
  uploadJson : String → Except String String

/-- Observable external actions of one pipeline run, in order. -/
inductive Event where
  | downloadEv
  | loadModelEv
  | transcribeEv
  | alignLoadEv
  | alignEv
  | diarLoadEv
  | diarRunEv
  | assignEv
  | uploadTextEv (key : String)
  | uploadJsonEv (key : String)
deriving DecidableEq, Repr

/-- Lines 308-315: the catch-all failure response; every fatal exception turns
into status `FAILED` with the single error code `TRANSCRIPTION_ERROR`. -/
def failureResponse (req : TranscriptionRequest) (msg : String) :
    TranscriptionResponse :=
  { job_id := req.job_id,
    status := TStatus.failed,
    message := "Transcription failed",
    error_message := some msg,
    error_code := some "TRANSCRIPTION_ERROR" }

/-- Line 186: `language = result.get("language", request.language)`. -/
def detectedLanguage (result : WxResult) (req : TranscriptionRequest) :
    Option String :=
  match result.language with
  | some l => some l
  | none => req.language

/-- Line 191: Python truthiness of `language and language != "auto"`. -/
def languageUsable : Option String → Bool
  | none => false
  | some l => l ≠ "" && l ≠ "auto"

/-- Lines 158-320: `process_transcription_sync`, returning the response, the
final service state and the trace of external actions performed.  Fatal
exceptions (download, whisper model load, transcription) fall to the outer
handler; alignment, diarization and upload exceptions are caught locally and
the pipeline continues. -/
def processTranscriptionSync (st : ServiceState) (req : TranscriptionRequest)
    (env : Env) : TranscriptionResponse × ServiceState × List Event :=
  match env.download with
  | Except.error e => (failureResponse req e, st, [Event.downloadEv])
  | Except.ok _path =>
    match loadWhisperModel st req.model req.compute_type env.loadModel with
    | (Except.error e, st1) =>
      (failureResponse req e, st1, [Event.downloadEv, Event.loadModelEv])
    | (Except.ok _model, st1) =>
      match env.transcribeRes with
      | Except.error e =>
        (failureResponse req e, st1,
         [Event.downloadEv, Event.loadModelEv, Event.transcribeEv])
      | Except.ok result =>
        let language := detectedLanguage result req
        let alignStage :=
          if languageUsable language then
            match loadAlignmentModel st1 (language.getD "") env.loadAlign with
            | (some _am, st2) =>
              match env.alignRes with
              | Except.ok ar => (ar, st2, [Event.alignLoadEv, Event.alignEv])
              | Except.error _ => (result, st2, [Event.alignLoadEv, Event.alignEv])
            | (none, st2) => (result, st2, [Event.alignLoadEv])
          else (result, st1, ([] : List Event))
        match alignStage with
        | (alignedResult, st2, ev2) =>
          let diarStage :=
            if req.diarize then
              match loadDiarizationPipeline st2 env.diarConstruct with
              | (some _dp, st3) =>
                match env.diarizeRun with
                | Except.error _ =>
                  (alignedResult, (none : Option (List SpeakerInfo)), st3,
                   [Event.diarLoadEv, Event.diarRunEv])
                | Except.ok _ =>
                  match env.assignRes with
                  | Except.error _ =>
                    (alignedResult, none, st3,
                     [Event.diarLoadEv, Event.diarRunEv, Event.assignEv])
                  | Except.ok dr =>
                    (dr, some (extractSpeakerInfo dr.segments), st3,
                     [Event.diarLoadEv, Event.diarRunEv, Event.assignEv])
              | (none, st3) => (alignedResult, none, st3, [Event.diarLoadEv])
            else (alignedResult, none, st2, ([] : List Event))
          match diarStage with
          | (diarizedResult, speakers, st3, ev3) =>
            let segments := diarizedResult.segments
            let tkey := "transcripts/" ++ req.job_id ++ ".txt"
            let jkey := "timestamps/" ++ req.job_id ++ ".json"
            let uploads :=
              match env.uploadText tkey with
              | Except.error _ =>
                ((none : Option String), (none : Option String),
                 [Event.uploadTextEv tkey])
              | Except.ok tu =>
                match env.uploadJson jkey with
                | Except.error _ =>
                  (some tu, none, [Event.uploadTextEv tkey, Event.uploadJsonEv jkey])
                | Except.ok ju =>
                  (some tu, some ju,
                   [Event.uploadTextEv tkey, Event.uploadJsonEv jkey])
            match uploads with
            | (transcriptUrl, timestampsUrl, ev4) =>
              ({ job_id := req.job_id,
                 status := TStatus.completed,
                 message := "Transcription completed successfully",
                 transcript_text := some (transcriptText segments),
                 confidence := avgConfidence segments,
                 language_detected := language,
                 segments := some segments,
                 word_segments := some (diarizedResult.wordSegments.getD []),
                 speakers := speakers,
                 model_used := some req.model,
                 compute_type_used := some req.compute_type,
                 transcript_url := transcriptUrl,
                 timestamps_url := timestampsUrl },
               st3,
               [Event.downloadEv, Event.loadModelEv, Event.transcribeEv]
                 ++ ev2 ++ ev3 ++ ev4)

/-- A callback delivery handed to `_send_callback`: endpoint, job id, result. -/
structure CallbackSend where
  url : String
  job_id : String
  result : TranscriptionResponse
deriving DecidableEq, Repr

/-- Lines 133-156: `process_transcription_async` runs the synchronous pipeline
and, only when a callback URL is present, hands the terminal result to the
callback dispatcher; the result itself is not returned to anyone.  The value
of this function is the list of callback deliveries initiated. -/
def processTranscriptionAsync (st : ServiceState) (req : TranscriptionRequest)
    (env : Env) : List CallbackSend :=
  match processTranscriptionSync st req env with
  | (result, _st, _tr) =>
    match req.callback_url with
    | some url => [{ url := url, job_id := req.job_id, result := result }]
    | none => []

/-- `app/main.py` lines 94-127: the `/transcribe` endpoint.  For an
asynchronous request it schedules the background task and immediately answers
with a `PROCESSING` acknowledgment; for a synchronous request it returns the
pipeline's terminal response.  The second component is the list of callback
deliveries the scheduled background work performs. -/
def transcribeAudio (st : ServiceState) (req : TranscriptionRequest)
    (env : Env) : TranscriptionResponse × List CallbackSend :=
  if req.synchronous then
    ((processTranscriptionSync st req env).1, [])
  else
    ({ job_id := req.job_id,
       status := TStatus.processing,
       message := "Transcription started in background" },
     processTranscriptionAsync st req env)

/-- Outcome of `_send_callback`: how many POST attempts were made, the
back-off delays slept between attempts (in seconds), and whether delivery
succeeded.  The function is total: the source wraps the whole body in a
catch-all handler, so no exception ever reaches the caller. -/
structure CallbackResult where
  attempts : Nat
  delays : List Nat
  delivered : Bool
deriving DecidableEq, Repr

/-- Lines 363-378: the retry loop of `_send_callback`.  `fuel` is the number
of attempts still allowed (`max_retries - attempt`); `attempt` is the current
zero-based attempt index; `outcomes n` tells whether POST attempt `n`
succeeds (a non-2xx status or transport error counts as failure).  After a
failed attempt that is not the last one, the loop sleeps `2 ^ attempt`
seconds. -/
def sendLoop (outcomes : Nat → Bool) : Nat → Nat → CallbackResult
  | 0, _ => { attempts := 0, delays := [], delivered := false }
  | fuel + 1, attempt =>
    if outcomes attempt then
      { attempts := 1, delays := [], delivered := true }
    else
      if fuel = 0 then
        { attempts := 1, delays := [], delivered := false }
      else
        let rest := sendLoop outcomes fuel (attempt + 1)
        { attempts := rest.attempts + 1,
          delays := 2 ^ attempt :: rest.delays,
          delivered := rest.delivered }

/-- Lines 341-383: `_send_callback`.  Up to `maxRetries` POST attempts with
exponential back-off; exhaustion is only logged, never raised. -/
def sendCallback (maxRetries : Nat) (outcomes : Nat → Bool) : CallbackResult :=
  sendLoop outcomes maxRetries 0

/-!
Interleaving model for concurrent first-time acquisition of one model-cache
key (`_load_whisper_model` run by two executor threads for the same uncached
key).  The Python interpreter makes each bytecode step atomic but the body of
`_load_whisper_model` spans many: the cache lookup (line 67), the model
construction (line 73) and the cache write (line 80) are separate atomic
actions between which the other thread may run.  Each thread that constructs
returns its own freshly built handle (line 82), not the cache entry.
-/

/-- Program counter of one thread running `_load_whisper_model` for the
shared key: `0` before the cache check, `1` about to construct, `2` about to
write the cache, `3` returned. -/
structure RaceState where
  cache : Option ModelHandle
  nextId : Nat
  constructions : Nat
  pc1 : Nat
  loc1 : Option ModelHandle
  pc2 : Nat
  loc2 : Option ModelHandle
deriving DecidableEq, Repr

/-- Both threads at the start, cache empty for the key, no construction yet. -/
def raceInit : RaceState :=
  { cache := none, nextId := 0, constructions := 0,
    pc1 := 0, loc1 := none, pc2 := 0, loc2 := none }

/-- One atomic step of the given thread (described for thread 1; thread 2 is
symmetric): the cache check takes the cached handle and returns on a hit and
falls through to construction on a miss; construction builds a fresh handle;
the write publishes the thread's own handle to the cache. -/
def raceStep (s : RaceState) (thread2 : Bool) : RaceState :=
  if thread2 then
    if s.pc2 == 0 then
      match s.cache with
      | some m => { s with pc2 := 3, loc2 := some m }
      | none => { s with pc2 := 1 }
    else if s.pc2 == 1 then
      { s with pc2 := 2, loc2 := some s.nextId, nextId := s.nextId + 1,
               constructions := s.constructions + 1 }
    else if s.pc2 == 2 then
      { s with pc2 := 3, cache := s.loc2 }
    else s
  else
    if s.pc1 == 0 then
      match s.cache with
      | some m => { s with pc1 := 3, loc1 := some m }
      | none => { s with pc1 := 1 }
    else if s.pc1 == 1 then
      { s with pc1 := 2, loc1 := some s.nextId, nextId := s.nextId + 1,
               constructions := s.constructions + 1 }
    else if s.pc1 == 2 then
      { s with pc1 := 3, cache := s.loc1 }
    else s

/-- Run a schedule: the list names, step by step, which thread executes its
next atomic action (`false` = thread 1, `true` = thread 2). -/
def raceRun (schedule : List Bool) : RaceState :=
  schedule.foldl raceStep raceInit

/-- The 3-segment recognition output of the spec's scenario for job `J1`:
`[(0.0, 1.0, "hello"), (1.0, 2.0, "world"), (2.0, 2.5, "")]`. -/
def scenarioSegments : List Segment :=
  [{ start := some 0, stop := some 1, text := some "hello" },
   { start := some 1, stop := some 2, text := some "world" },
   { start := some 2, stop := some (5 / 2), text := some "" }]

/-- The scenario request: job `J1`, base model, no diarization, no language
given (so alignment is skipped, matching "no alignment/diarization"). -/
def scenarioRequest : TranscriptionRequest :=
  { job_id := "J1", s3_url := "s3://bucket/audio.wav",
    model := "base", compute_type := "float16" }

/-- Oracle for the scenario run: download, model load, transcription and both
uploads succeed; the recognition result is the 3-segment list with no detected
language; alignment and diarization collaborators would fail if reached. -/
def scenarioEnv : Env :=
  { download := Except.ok "/tmp/audio_J1.wav",
    loadModel := Except.ok 7,
    transcribeRes := Except.ok { segments := scenarioSegments },
    loadAlign := Except.error "alignment unavailable",
    alignRes := Except.error "alignment unavailable",
    diarConstruct := Except.error "diarization unavailable",
    diarizeRun := Except.error "diarization unavailable",
    assignRes := Except.error "diarization unavailable",
    uploadText := fun key => Except.ok ("s3://speechtotext-bucket/" ++ key),
    uploadJson := fun key => Except.ok ("s3://speechtotext-bucket/" ++ key) }

/-- Scenario oracle whose recognition call raises. -/
def recogFailEnv : Env :=
  { scenarioEnv with transcribeRes := Except.error "model crashed" }

/-- Scenario request with diarization requested. -/
def diarRequest : TranscriptionRequest :=
  { scenarioRequest with diarize := true }

/-- The service state after the scenario's first whisper-model load. -/
def scenarioState1 : ServiceState :=
  { models := [("base_float16", 7)] }

/-- C1 counterexample: on the scenario input the empty-text third segment
still contributes a join position, so `transcript_text` is `"hello world "`
with a trailing space, not the claimed `"hello world"`; the three segments are
all retained. -/
theorem claim_C1_counterexample :
    (processTranscriptionSync {} scenarioRequest scenarioEnv).1.transcript_text
        ≠ some "hello world" ∧
    (processTranscriptionSync {} scenarioRequest scenarioEnv).1.transcript_text
        = some "hello world " ∧
    (processTranscriptionSync {} scenarioRequest scenarioEnv).1.segments
        = some scenarioSegments := by
  refine ⟨by decide, rfl, rfl⟩

/-- C1 (amended): for every job whose download, model load and recognition
succeed, with no usable language and no diarization requested, the
`transcript_text` of the completed result is the trimmed texts of ALL
segments, in the order the recognition stage produced them, joined with
single spaces — a segment whose text trims to empty still contributes a join
position — and the segment list of the result is exactly the recognition
segment list. -/
theorem claim_C1 (st st1 : ServiceState) (req : TranscriptionRequest)
    (env : Env) (p : String) (mh : ModelHandle) (r : WxResult)
    (hdl : env.download = Except.ok p)
    (hm : loadWhisperModel st req.model req.compute_type env.loadModel
        = (Except.ok mh, st1))
    (ht : env.transcribeRes = Except.ok r)
    (hlang : languageUsable (detectedLanguage r req) = false)
    (hdz : req.diarize = false) :
    (processTranscriptionSync st req env).1.transcript_text
        = some (String.intercalate " "
            (r.segments.map (fun seg => pyStrip (seg.text.getD "")))) ∧
    (processTranscriptionSync st req env).1.segments = some r.segments ∧
    (processTranscriptionSync st req env).1.status = TStatus.completed := by
  cases hup : env.uploadText ("transcripts/" ++ req.job_id ++ ".txt") with
  | error e =>
    simp [processTranscriptionSync, hdl, hm, ht, hlang, hdz, hup, transcriptText]
  | ok tu =>
    cases hj : env.uploadJson ("timestamps/" ++ req.job_id ++ ".json") with
    | error e =>
      simp [processTranscriptionSync, hdl, hm, ht, hlang, hdz, hup, hj,
        transcriptText]
    | ok ju =>
      simp [processTranscriptionSync, hdl, hm, ht, hlang, hdz, hup, hj,
        transcriptText]

/-- C1 witness: the amended statement instantiated on the scenario run. -/
theorem claim_C1_witness :
    (processTranscriptionSync {} scenarioRequest scenarioEnv).1.transcript_text
        = some (String.intercalate " "
            (scenarioSegments.map (fun seg => pyStrip (seg.text.getD "")))) ∧
    (processTranscriptionSync {} scenarioRequest scenarioEnv).1.segments
        = some scenarioSegments ∧
    (processTranscriptionSync {} scenarioRequest scenarioEnv).1.status
        = TStatus.completed :=
  claim_C1 {} scenarioState1 scenarioRequest scenarioEnv "/tmp/audio_J1.wav" 7
    { segments := scenarioSegments } rfl rfl rfl rfl rfl

/-- C2: the average confidence computed by the worker (mean of the
`confidence` values of exactly the segments that carry one, `None` when no
segment carries one) coincides with the spec-side "mean of present values,
absent when none present" definition, for every segment list. -/
theorem claim_C2 (segments : List Segment) :
    avgConfidence segments = specMeanPresent segments := by
  have h : (segments.filter (fun seg => seg.confidence.isSome)).map
        (fun seg => seg.confidence.getD 0)
      = segments.filterMap (fun seg => seg.confidence) := by
    induction segments with
    | nil => rfl
    | cons s l ih =>
      cases hs : s.confidence with
      | none => simp [List.filter_cons, List.filterMap_cons, hs, ih]
      | some c => simp [List.filter_cons, List.filterMap_cons, hs, ih]
  unfold avgConfidence specMeanPresent
  rw [h]

/-- C2 witness: the coincidence evaluated on a list with one absent and two
present confidence values. -/
theorem claim_C2_witness :
    avgConfidence
        [{ confidence := some 1 }, {}, { confidence := some (1 / 2) }]
      = specMeanPresent
        [{ confidence := some 1 }, {}, { confidence := some (1 / 2) }] :=
  claim_C2 [{ confidence := some 1 }, {}, { confidence := some (1 / 2) }]

/-- C3 counterexample: when the recognition call raises, the job fails, but
the structured failure record carries the blanket error code
`TRANSCRIPTION_ERROR`, not a `RecognitionError` code. -/
theorem claim_C3_counterexample :
    (processTranscriptionSync {} scenarioRequest recogFailEnv).1.status
        = TStatus.failed ∧
    (processTranscriptionSync {} scenarioRequest recogFailEnv).1.error_code
        ≠ some "RecognitionError" ∧
    (processTranscriptionSync {} scenarioRequest recogFailEnv).1.error_code
        = some "TRANSCRIPTION_ERROR" := by
  refine ⟨rfl, by decide, rfl⟩

/-- C3 (amended): for every job whose download and model load succeed and
whose recognition call raises, the job terminates with status `failed` and a
structured failure record whose error code is `TRANSCRIPTION_ERROR` (the
worker uses this single code for every fatal failure), and none of the later
stages (alignment, diarization, aggregation uploads) run: the external-action
trace stops at the recognition call. -/
theorem claim_C3 (st st1 : ServiceState) (req : TranscriptionRequest)
    (env : Env) (p : String) (mh : ModelHandle) (e : String)
    (hdl : env.download = Except.ok p)
    (hm : loadWhisperModel st req.model req.compute_type env.loadModel
        = (Except.ok mh, st1))
    (ht : env.transcribeRes = Except.error e) :
    processTranscriptionSync st req env
        = (failureResponse req e, st1,
           [Event.downloadEv, Event.loadModelEv, Event.transcribeEv]) ∧
    (processTranscriptionSync st req env).1.status = TStatus.failed ∧
    (processTranscriptionSync st req env).1.error_code
        = some "TRANSCRIPTION_ERROR" ∧
    (processTranscriptionSync st req env).1.error_message = some e ∧
    Event.alignLoadEv ∉ (processTranscriptionSync st req env).2.2 ∧
    Event.alignEv ∉ (processTranscriptionSync st req env).2.2 ∧
    Event.diarLoadEv ∉ (processTranscriptionSync st req env).2.2 ∧
    Event.diarRunEv ∉ (processTranscriptionSync st req env).2.2 ∧
    Event.assignEv ∉ (processTranscriptionSync st req env).2.2 ∧
    (∀ k, Event.uploadTextEv k ∉ (processTranscriptionSync st req env).2.2) ∧
    (∀ k, Event.uploadJsonEv k ∉ (processTranscriptionSync st req env).2.2) := by
  have hrun : processTranscriptionSync st req env
      = (failureResponse req e, st1,
         [Event.downloadEv, Event.loadModelEv, Event.transcribeEv]) := by
    simp [processTranscriptionSync, hdl, hm, ht]
  rw [hrun]
  refine ⟨rfl, rfl, rfl, rfl, by simp, by simp, by simp, by simp,
    by simp, ?_, ?_⟩ <;>
  · intro k hk
    simp at hk

/-- C3 witness: the amended statement instantiated on the scenario run whose
recognition call raises. -/
theorem claim_C3_witness :
    processTranscriptionSync {} scenarioRequest recogFailEnv
        = (failureResponse scenarioRequest "model crashed", scenarioState1,
           [Event.downloadEv, Event.loadModelEv, Event.transcribeEv]) ∧
    (processTranscriptionSync {} scenarioRequest recogFailEnv).1.status
        = TStatus.failed ∧
    (processTranscriptionSync {} scenarioRequest recogFailEnv).1.error_code
        = some "TRANSCRIPTION_ERROR" ∧
    (processTranscriptionSync {} scenarioRequest recogFailEnv).1.error_message
        = some "model crashed" ∧
    Event.alignLoadEv ∉ (processTranscriptionSync {} scenarioRequest recogFailEnv).2.2 ∧
    Event.alignEv ∉ (processTranscriptionSync {} scenarioRequest recogFailEnv).2.2 ∧
    Event.diarLoadEv ∉ (processTranscriptionSync {} scenarioRequest recogFailEnv).2.2 ∧
    Event.diarRunEv ∉ (processTranscriptionSync {} scenarioRequest recogFailEnv).2.2 ∧
    Event.assignEv ∉ (processTranscriptionSync {} scenarioRequest recogFailEnv).2.2 ∧
    (∀ k, Event.uploadTextEv k
        ∉ (processTranscriptionSync {} scenarioRequest recogFailEnv).2.2) ∧
    (∀ k, Event.uploadJsonEv k
        ∉ (processTranscriptionSync {} scenarioRequest recogFailEnv).2.2) :=
  claim_C3 {} scenarioState1 scenarioRequest recogFailEnv "/tmp/audio_J1.wav" 7
    "model crashed" rfl rfl rfl

/-- C4: for every job whose download, model load and recognition succeed,
whose detected language is usable and whose alignment stage fails — either
the alignment-model load yields no model, or the align call itself raises —
with diarization not requested, the job still completes and the result's
segments are exactly the pre-alignment recognition segments with no word
segments; no error is recorded. -/
theorem claim_C4 (st st1 : ServiceState) (req : TranscriptionRequest)
    (env : Env) (p : String) (mh : ModelHandle) (r : WxResult)
    (hdl : env.download = Except.ok p)
    (hm : loadWhisperModel st req.model req.compute_type env.loadModel
        = (Except.ok mh, st1))
    (ht : env.transcribeRes = Except.ok r)
    (hw : r.wordSegments = none)
    (hlang : languageUsable (detectedLanguage r req) = true)
    (halign : (loadAlignmentModel st1 ((detectedLanguage r req).getD "")
          env.loadAlign).1 = none
        ∨ ∃ e, env.alignRes = Except.error e)
    (hdz : req.diarize = false) :
    (processTranscriptionSync st req env).1.status = TStatus.completed ∧
    (processTranscriptionSync st req env).1.segments = some r.segments ∧
    (processTranscriptionSync st req env).1.word_segments = some [] ∧
    (processTranscriptionSync st req env).1.error_code = none ∧
    (processTranscriptionSync st req env).1.error_message = none := by
  cases hla : loadAlignmentModel st1 ((detectedLanguage r req).getD "")
      env.loadAlign with
  | mk amOpt st2 =>
    cases amOpt with
    | none =>
      cases hup : env.uploadText ("transcripts/" ++ req.job_id ++ ".txt") with
      | error e =>
        simp [processTranscriptionSync, hdl, hm, ht, hlang, hdz, hla, hup, hw]
      | ok tu =>
        cases hj : env.uploadJson ("timestamps/" ++ req.job_id ++ ".json") with
        | error e =>
          simp [processTranscriptionSync, hdl, hm, ht, hlang, hdz, hla, hup,
            hj, hw]
        | ok ju =>
          simp [processTranscriptionSync, hdl, hm, ht, hlang, hdz, hla, hup,
            hj, hw]
    | some am =>
      have he : ∃ e, env.alignRes = Except.error e := by
        cases halign with
        | inl hnone => rw [hla] at hnone; exact absurd hnone (by simp)
        | inr he => exact he
      obtain ⟨e, he⟩ := he
      cases hup : env.uploadText ("transcripts/" ++ req.job_id ++ ".txt") with
      | error e2 =>
        simp [processTranscriptionSync, hdl, hm, ht, hlang, hdz, hla, he, hup,
          hw]
      | ok tu =>
        cases hj : env.uploadJson ("timestamps/" ++ req.job_id ++ ".json") with
        | error e2 =>
          simp [processTranscriptionSync, hdl, hm, ht, hlang, hdz, hla, he,
            hup, hj, hw]
        | ok ju =>
          simp [processTranscriptionSync, hdl, hm, ht, hlang, hdz, hla, he,
            hup, hj, hw]

/-- C4 witness: the amended-free claim instantiated on a run with a usable
language whose alignment-model load fails. -/
theorem claim_C4_witness :
    ((processTranscriptionSync {}
        { scenarioRequest with language := some "en" } scenarioEnv).1.status
        = TStatus.completed ∧
    (processTranscriptionSync {}
        { scenarioRequest with language := some "en" } scenarioEnv).1.segments
        = some scenarioSegments ∧
    (processTranscriptionSync {}
        { scenarioRequest with language := some "en" } scenarioEnv).1.word_segments
        = some [] ∧
    (processTranscriptionSync {}
        { scenarioRequest with language := some "en" } scenarioEnv).1.error_code
        = none ∧
    (processTranscriptionSync {}
        { scenarioRequest with language := some "en" } scenarioEnv).1.error_message
        = none) :=
  claim_C4 {} scenarioState1 { scenarioRequest with language := some "en" }
    scenarioEnv "/tmp/audio_J1.wav" 7 { segments := scenarioSegments }
    rfl rfl rfl rfl rfl (Or.inl rfl) rfl

/-- C5 counterexample: with diarization requested but no HuggingFace token
configured, the job completes without a fatal error, but the `speakers` field
of the result is `None` (absent), not an empty list. -/
theorem claim_C5_counterexample :
    (processTranscriptionSync {} diarRequest scenarioEnv).1.status
        = TStatus.completed ∧
    (processTranscriptionSync {} diarRequest scenarioEnv).1.speakers = none ∧
    (processTranscriptionSync {} diarRequest scenarioEnv).1.speakers
        ≠ some [] := by
  refine ⟨rfl, rfl, by decide⟩

/-- C5 (amended): for every job with diarization requested whose download,
model load and recognition succeed (and with no usable language, so alignment
is skipped), if the diarization stage fails — the pipeline acquisition yields
none (missing token or raising constructor) or the pipeline run or the
speaker assignment raises — the job still completes, the segments are
unchanged, no error is recorded, and the `speakers` field is absent (`None`),
not an empty list. -/
theorem claim_C5 (st st1 : ServiceState) (req : TranscriptionRequest)
    (env : Env) (p : String) (mh : ModelHandle) (r : WxResult)
    (hdl : env.download = Except.ok p)
    (hm : loadWhisperModel st req.model req.compute_type env.loadModel
        = (Except.ok mh, st1))
    (ht : env.transcribeRes = Except.ok r)
    (hlang : languageUsable (detectedLanguage r req) = false)
    (hdz : req.diarize = true)
    (hfail : (loadDiarizationPipeline st1 env.diarConstruct).1 = none
        ∨ (∃ e, env.diarizeRun = Except.error e)
        ∨ (∃ e, env.assignRes = Except.error e)) :
    (processTranscriptionSync st req env).1.status = TStatus.completed ∧
    (processTranscriptionSync st req env).1.segments = some r.segments ∧
    (processTranscriptionSync st req env).1.speakers = none ∧
    (processTranscriptionSync st req env).1.error_code = none ∧
    (processTranscriptionSync st req env).1.error_message = none := by
  cases hdp : loadDiarizationPipeline st1 env.diarConstruct with
  | mk dpOpt st3 =>
    cases hup : env.uploadText ("transcripts/" ++ req.job_id ++ ".txt") with
    | error e2 =>
      cases dpOpt with
      | none =>
        simp [processTranscriptionSync, hdl, hm, ht, hlang, hdz, hdp, hup]
      | some dp =>
        have hrun : (∃ e, env.diarizeRun = Except.error e)
            ∨ (∃ e, env.assignRes = Except.error e) := by
          cases hfail with
          | inl hnone => rw [hdp] at hnone; exact absurd hnone (by simp)
          | inr h2 => exact h2
        cases hrun with
        | inl hr =>
          obtain ⟨e, hr⟩ := hr
          simp [processTranscriptionSync, hdl, hm, ht, hlang, hdz, hdp, hr, hup]
        | inr ha =>
          obtain ⟨e, ha⟩ := ha
          cases hr : env.diarizeRun with
          | error e2 =>
            simp [processTranscriptionSync, hdl, hm, ht, hlang, hdz, hdp, hr,
              hup]
          | ok u =>
            simp [processTranscriptionSync, hdl, hm, ht, hlang, hdz, hdp, hr,
              ha, hup]
    | ok tu =>
      cases hj : env.uploadJson ("timestamps/" ++ req.job_id ++ ".json") with
      | error e2 =>
        cases dpOpt with
        | none =>
          simp [processTranscriptionSync, hdl, hm, ht, hlang, hdz, hdp, hup, hj]
        | some dp =>
          have hrun : (∃ e, env.diarizeRun = Except.error e)
              ∨ (∃ e, env.assignRes = Except.error e) := by
            cases hfail with
            | inl hnone => rw [hdp] at hnone; exact absurd hnone (by simp)
            | inr h2 => exact h2
          cases hrun with
          | inl hr =>
            obtain ⟨e, hr⟩ := hr
            simp [processTranscriptionSync, hdl, hm, ht, hlang, hdz, hdp, hr,
              hup, hj]
          | inr ha =>
            obtain ⟨e, ha⟩ := ha
            cases hr : env.diarizeRun with
            | error e2 =>
              simp [processTranscriptionSync, hdl, hm, ht, hlang, hdz, hdp,
                hr, hup, hj]
            | ok u =>
              simp [processTranscriptionSync, hdl, hm, ht, hlang, hdz, hdp,
                hr, ha, hup, hj]
      | ok ju =>
        cases dpOpt with
        | none =>
          simp [processTranscriptionSync, hdl, hm, ht, hlang, hdz, hdp, hup, hj]
        | some dp =>
          have hrun : (∃ e, env.diarizeRun = Except.error e)
              ∨ (∃ e, env.assignRes = Except.error e) := by
            cases hfail with
            | inl hnone => rw [hdp] at hnone; exact absurd hnone (by simp)
            | inr h2 => exact h2
          cases hrun with
          | inl hr =>
            obtain ⟨e, hr⟩ := hr
            simp [processTranscriptionSync, hdl, hm, ht, hlang, hdz, hdp, hr,
              hup, hj]
          | inr ha =>
            obtain ⟨e, ha⟩ := ha
            cases hr : env.diarizeRun with
            | error e2 =>
              simp [processTranscriptionSync, hdl, hm, ht, hlang, hdz, hdp,
                hr, hup, hj]
            | ok u =>
              simp [processTranscriptionSync, hdl, hm, ht, hlang, hdz, hdp,
                hr, ha, hup, hj]

/-- C5 witness: the amended statement instantiated on the scenario run with
diarization requested and no HuggingFace token configured. -/
theorem claim_C5_witness :
    (processTranscriptionSync {} diarRequest scenarioEnv).1.status
        = TStatus.completed ∧
    (processTranscriptionSync {} diarRequest scenarioEnv).1.segments
        = some scenarioSegments ∧
    (processTranscriptionSync {} diarRequest scenarioEnv).1.speakers = none ∧
    (processTranscriptionSync {} diarRequest scenarioEnv).1.error_code = none ∧
    (processTranscriptionSync {} diarRequest scenarioEnv).1.error_message
        = none :=
  claim_C5 {} scenarioState1 diarRequest scenarioEnv "/tmp/audio_J1.wav" 7
    { segments := scenarioSegments } rfl rfl rfl rfl rfl (Or.inl rfl)

/-- An endpoint that fails the first two POST attempts and succeeds on the
third (attempts are numbered from zero). -/
def failsFirstTwo (n : Nat) : Bool :=
  decide (2 ≤ n)

/-- An endpoint whose POST always fails. -/
def alwaysFails (_ : Nat) : Bool :=
  false

/-- Against an always-failing endpoint, the retry loop makes exactly as many
attempts as it has fuel and never reports delivery. -/
theorem sendLoop_alwaysFails (fuel : Nat) : ∀ a : Nat,
    (sendLoop alwaysFails fuel a).attempts = fuel ∧
    (sendLoop alwaysFails fuel a).delivered = false := by
  induction fuel with
  | zero => intro a; exact ⟨rfl, rfl⟩
  | succ f ih =>
    intro a
    by_cases hf : f = 0
    · subst hf
      simp [sendLoop, alwaysFails]
    · have := ih (a + 1)
      simp [sendLoop, alwaysFails, hf, this.1, this.2]

/-- C6: callback delivery with the default of 3 retries.  Against an endpoint
that fails the first two attempts and succeeds on the third, exactly 3
attempts occur, the inter-attempt delays are 1 then 2 seconds (each double
the previous, starting from the base interval of one second), and delivery
succeeds.  Against an always-failing endpoint, exactly the configured maximum
number of attempts occur for every positive maximum, delivery is never
reported, and the dispatcher returns normally (the embedded function is
total, mirroring the catch-all handler around the loop: nothing escapes to
the caller); with the default maximum of 3 the run is 3 failed attempts with
delays 1 and 2. -/
theorem claim_C6 :
    sendCallback 3 failsFirstTwo
        = { attempts := 3, delays := [1, 2], delivered := true } ∧
    (1 < 2 ∧ 2 = 2 * 1) ∧
    (∀ m : Nat, 0 < m →
      (sendCallback m alwaysFails).attempts = m ∧
      (sendCallback m alwaysFails).delivered = false) ∧
    sendCallback (ServiceState.maxRetries {}) alwaysFails
        = { attempts := 3, delays := [1, 2], delivered := false } := by
  refine ⟨by decide, by decide, ?_, by decide⟩
  intro m _hm
  exact sendLoop_alwaysFails m 0

/-- C6 witness: the always-failing branch instantiated at the default maximum
of 3 attempts. -/
theorem claim_C6_witness :
    0 < 3 ∧
    ((sendCallback 3 alwaysFails).attempts = 3 ∧
     (sendCallback 3 alwaysFails).delivered = false) :=
  ⟨by decide, claim_C6.2.2.1 3 (by decide)⟩

/-- C7: sequential idempotence of the whisper-model cache per
(model-name, compute-type) key.  On a cache miss, a successful construction
returns the new handle and caches it under the key; any later call for the
same key returns that identical cached handle and leaves the state unchanged,
whatever its own construction oracle would do (it is not consulted); a
raising construction re-raises and caches nothing, so the state still misses
the key and the next call attempts construction again. -/
theorem claim_C7 (st : ServiceState) (modelName computeType : String)
    (h : ModelHandle)
    (hmiss : dictLookup st.models (cacheKey modelName computeType) = none) :
    loadWhisperModel st modelName computeType (Except.ok h)
        = (Except.ok h,
           { st with models :=
               (cacheKey modelName computeType, h) :: st.models }) ∧
    (∀ construct2 : Except String ModelHandle,
      loadWhisperModel
          { st with models := (cacheKey modelName computeType, h) :: st.models }
          modelName computeType construct2
        = (Except.ok h,
           { st with models :=
               (cacheKey modelName computeType, h) :: st.models })) ∧
    (∀ e : String,
      loadWhisperModel st modelName computeType (Except.error e)
        = (Except.error e, st) ∧
      dictLookup st.models (cacheKey modelName computeType) = none) := by
  refine ⟨?_, ?_, ?_⟩
  · simp [loadWhisperModel, hmiss]
  · intro construct2
    simp [loadWhisperModel, dictLookup]
  · intro e
    exact ⟨by simp [loadWhisperModel, hmiss], hmiss⟩

/-- C7 witness: the cache behaviour at the empty service state for the key
`base_float16`. -/
theorem claim_C7_witness :
    (loadWhisperModel {} "base" "float16" (Except.ok 7)
        = (Except.ok 7, { models := [(cacheKey "base" "float16", 7)] }) ∧
    (∀ construct2 : Except String ModelHandle,
      loadWhisperModel { models := [(cacheKey "base" "float16", 7)] }
          "base" "float16" construct2
        = (Except.ok 7, { models := [(cacheKey "base" "float16", 7)] })) ∧
    (∀ e : String,
      loadWhisperModel {} "base" "float16" (Except.error e)
        = (Except.error e, {}) ∧
      dictLookup (ServiceState.models {}) (cacheKey "base" "float16") = none)) :=
  claim_C7 {} "base" "float16" 7 rfl

/-- C8: persistence is non-fatal and uses deterministic keys.  For every job
whose download, model load and recognition succeed (no usable language, no
diarization), the worker uploads under `transcripts/{job_id}.txt` and
`timestamps/{job_id}.json`; if the transcript upload raises, the job still
completes carrying the transcript text, segments, word segments and
confidence in memory, with both artifact URL fields absent; if only the
timings upload raises, the job completes with the transcript URL present and
the timings URL absent; if both succeed, both URLs are returned and the trace
shows the two deterministic keys. -/
theorem claim_C8 (st st1 : ServiceState) (req : TranscriptionRequest)
    (env : Env) (p : String) (mh : ModelHandle) (r : WxResult)
    (hdl : env.download = Except.ok p)
    (hm : loadWhisperModel st req.model req.compute_type env.loadModel
        = (Except.ok mh, st1))
    (ht : env.transcribeRes = Except.ok r)
    (hlang : languageUsable (detectedLanguage r req) = false)
    (hdz : req.diarize = false) :
    (∀ e, env.uploadText ("transcripts/" ++ req.job_id ++ ".txt")
        = Except.error e →
      (processTranscriptionSync st req env).1.status = TStatus.completed ∧
      (processTranscriptionSync st req env).1.transcript_text
          = some (transcriptText r.segments) ∧
      (processTranscriptionSync st req env).1.segments = some r.segments ∧
      (processTranscriptionSync st req env).1.word_segments
          = some (r.wordSegments.getD []) ∧
      (processTranscriptionSync st req env).1.confidence
          = avgConfidence r.segments ∧
      (processTranscriptionSync st req env).1.transcript_url = none ∧
      (processTranscriptionSync st req env).1.timestamps_url = none) ∧
    (∀ tu e, env.uploadText ("transcripts/" ++ req.job_id ++ ".txt")
        = Except.ok tu →
      env.uploadJson ("timestamps/" ++ req.job_id ++ ".json")
        = Except.error e →
      (processTranscriptionSync st req env).1.status = TStatus.completed ∧
      (processTranscriptionSync st req env).1.transcript_url = some tu ∧
      (processTranscriptionSync st req env).1.timestamps_url = none) ∧
    (∀ tu ju, env.uploadText ("transcripts/" ++ req.job_id ++ ".txt")
        = Except.ok tu →
      env.uploadJson ("timestamps/" ++ req.job_id ++ ".json")
        = Except.ok ju →
      (processTranscriptionSync st req env).1.status = TStatus.completed ∧
      (processTranscriptionSync st req env).1.transcript_url = some tu ∧
      (processTranscriptionSync st req env).1.timestamps_url = some ju ∧
      Event.uploadTextEv ("transcripts/" ++ req.job_id ++ ".txt")
          ∈ (processTranscriptionSync st req env).2.2 ∧
      Event.uploadJsonEv ("timestamps/" ++ req.job_id ++ ".json")
          ∈ (processTranscriptionSync st req env).2.2) := by
  refine ⟨?_, ?_, ?_⟩
  · intro e hup
    simp [processTranscriptionSync, hdl, hm, ht, hlang, hdz, hup]
  · intro tu e hup hj
    simp [processTranscriptionSync, hdl, hm, ht, hlang, hdz, hup, hj]
  · intro tu ju hup hj
    simp [processTranscriptionSync, hdl, hm, ht, hlang, hdz, hup, hj]

/-- C8 witness: the success branch instantiated on the scenario run, whose
uploads succeed under the keys `transcripts/J1.txt` and
`timestamps/J1.json`. -/
theorem claim_C8_witness :
    (processTranscriptionSync {} scenarioRequest scenarioEnv).1.status
        = TStatus.completed ∧
    (processTranscriptionSync {} scenarioRequest scenarioEnv).1.transcript_url
        = some "s3://speechtotext-bucket/transcripts/J1.txt" ∧
    (processTranscriptionSync {} scenarioRequest scenarioEnv).1.timestamps_url
        = some "s3://speechtotext-bucket/timestamps/J1.json" ∧
    Event.uploadTextEv ("transcripts/" ++ "J1" ++ ".txt")
        ∈ (processTranscriptionSync {} scenarioRequest scenarioEnv).2.2 ∧
    Event.uploadJsonEv ("timestamps/" ++ "J1" ++ ".json")
        ∈ (processTranscriptionSync {} scenarioRequest scenarioEnv).2.2 :=
  (claim_C8 {} scenarioState1 scenarioRequest scenarioEnv "/tmp/audio_J1.wav"
      7 { segments := scenarioSegments } rfl rfl rfl rfl rfl).2.2
    "s3://speechtotext-bucket/transcripts/J1.txt"
    "s3://speechtotext-bucket/timestamps/J1.json" rfl rfl

/-- C9 counterexample: the model cache has no construction guard, so the
interleaving in which both threads pass the cache check before either
constructs makes two underlying constructions, and the two callers end up
holding distinct handles (each returns the handle it built itself). -/
theorem claim_C9_counterexample :
    (raceRun [false, true, false, false, true, true]).constructions = 2 ∧
    (raceRun [false, true, false, false, true, true]).loc1
        ≠ (raceRun [false, true, false, false, true, true]).loc2 ∧
    (raceRun [false, true, false, false, true, true]).pc1 = 3 ∧
    (raceRun [false, true, false, false, true, true]).pc2 = 3 := by
  refine ⟨rfl, by decide, rfl, rfl⟩

/-- C9 (amended): first-time acquisition of an uninitialized model-cache key
by two concurrent callers is not coordinated.  There is an interleaving of
the atomic steps of `_load_whisper_model` (the one in the counterexample)
under which two underlying constructions occur and the callers receive
distinct handles; only when the second caller's cache check happens after the
first caller's cache write does exactly one construction occur with both
callers receiving the identical handle. -/
theorem claim_C9 :
    ((raceRun [false, true, false, false, true, true]).constructions = 2 ∧
     (raceRun [false, true, false, false, true, true]).loc1
        ≠ (raceRun [false, true, false, false, true, true]).loc2) ∧
    ((raceRun [false, false, false, true]).constructions = 1 ∧
     (raceRun [false, false, false, true]).pc1 = 3 ∧
     (raceRun [false, false, false, true]).pc2 = 3 ∧
     (raceRun [false, false, false, true]).loc1
        = (raceRun [false, false, false, true]).loc2 ∧
     (raceRun [false, false, false, true]).loc1 ≠ none) := by
  refine ⟨⟨rfl, by decide⟩, rfl, rfl, rfl, rfl, by decide⟩

/-- C10: an asynchronous job submitted without a callback URL is acknowledged
with a bare `PROCESSING` response carrying no transcript data, and the
background task delivers the computed terminal result nowhere: the list of
callback deliveries is empty, and the background task's value discards the
result. -/
theorem claim_C10 (st : ServiceState) (req : TranscriptionRequest) (env : Env)
    (hsync : req.synchronous = false)
    (hcb : req.callback_url = none) :
    (transcribeAudio st req env).1.status = TStatus.processing ∧
    (transcribeAudio st req env).1.transcript_text = none ∧
    (transcribeAudio st req env).1.segments = none ∧
    (transcribeAudio st req env).1.transcript_url = none ∧
    (transcribeAudio st req env).2 = [] ∧
    processTranscriptionAsync st req env = [] := by
  cases hres : processTranscriptionSync st req env with
  | mk resp rest =>
    have hasync : processTranscriptionAsync st req env = [] := by
      simp [processTranscriptionAsync, hres, hcb]
    refine ⟨?_, ?_, ?_, ?_, ?_, hasync⟩ <;>
      simp [transcribeAudio, hsync, hasync]

/-- C10 witness: the statement instantiated on the scenario request submitted
asynchronously with no callback URL. -/
theorem claim_C10_witness :
    (transcribeAudio {} scenarioRequest scenarioEnv).1.status
        = TStatus.processing ∧
    (transcribeAudio {} scenarioRequest scenarioEnv).1.transcript_text
        = none ∧
    (transcribeAudio {} scenarioRequest scenarioEnv).1.segments = none ∧
    (transcribeAudio {} scenarioRequest scenarioEnv).1.transcript_url = none ∧
    (transcribeAudio {} scenarioRequest scenarioEnv).2 = [] ∧
    processTranscriptionAsync {} scenarioRequest scenarioEnv = [] :=
  claim_C10 {} scenarioRequest scenarioEnv rfl rfl

end SpeechToText
